import Mathlib

/-!
Verification development for the Pangea compiler front-end.

Shallow embedding of the parts of the code base the claims concern:
the semantic analyzer's type model (src/src/semantic/type_checker.cpp),
the lexer's block-comment scanner (the lexer variant matching
src/src/lexer/lexer.h), the IR code generator's numeric promotion
(the llvm_codegen.cpp variant matching src/src/codegen/llvm_codegen.h),
the expression parser (src/src/parser/parser.cpp), and the module
loader / driver (src/src/main.cpp).
-/

namespace Pangea

/-! ## Semantic types (type_checker.cpp)

The C++ class SemanticType is a record of a kind tag plus name,
const flag, optional element type, parameter list and return type.
Only the fields the respective kind's constructor functions populate
are carried here, exactly as createPrimitive / createArray /
createPointer / createFunction / createVoid / createError set them:
arrays are created with name "Array", pointers with the kind name,
void with name "void" and the error type with name "<error>". -/

/-- The pointer kinds SemanticType::createPointer can store (the switch
over the pointer-qualifier token, with its default arm). -/
inductive PtrKind where
  | cptr | uniquePtr | sharedPtr | weakPtr | errPtr
deriving Repr, DecidableEq

/-- The name string createPointer stores for each pointer kind. -/
def PtrKind.ptrName : PtrKind → String
  | .cptr => "cptr"
  | .uniquePtr => "unique_ptr"
  | .sharedPtr => "shared_ptr"
  | .weakPtr => "weak_ptr"
  | .errPtr => "<error_ptr>"

inductive SemanticType where
  | primitive (name : String) (isConst : Bool)
  | arrayT (element : SemanticType) (isConst : Bool)
  | pointer (kind : PtrKind) (pointee : SemanticType) (isConst : Bool)
  | functionT (params : List SemanticType) (ret : SemanticType)
  | voidT
  | errorType

namespace SemanticType

/-- The value of the C++ name field, as the create* constructors set it. -/
def name : SemanticType → String
  | .primitive n _ => n
  | .arrayT _ _ => "Array"
  | .pointer pn _ _ => pn.ptrName
  | .functionT _ _ => ""
  | .voidT => "void"
  | .errorType => "<error>"

/-- The integer primitive names recognized by SemanticType::isNumberType. -/
def integerNames : List String :=
  ["i8", "i16", "i32", "i64", "u8", "u16", "u32", "u64"]

/-- The floating-point primitive names recognized by
SemanticType::isFloatingPointType. -/
def floatNames : List String := ["f32", "f64"]

/-- SemanticType::isNumberType: error is never numeric; a primitive is
numeric when its name is an integer name; otherwise the element type
(the pointee for pointers, the element for arrays) is consulted. -/
def isNumberType : SemanticType → Bool
  | .errorType => false
  | .primitive n _ => integerNames.contains n
  | .arrayT e _ => isNumberType e
  | .pointer _ p _ => isNumberType p
  | .functionT _ _ => false
  | .voidT => false

/-- SemanticType::isFloatingPointType, same traversal with the float names. -/
def isFloatingPointType : SemanticType → Bool
  | .errorType => false
  | .primitive n _ => floatNames.contains n
  | .arrayT e _ => isFloatingPointType e
  | .pointer _ p _ => isFloatingPointType p
  | .functionT _ _ => false
  | .voidT => false

mutual

/-- SemanticType::isCompatibleWith.  The error type is rejected against
everything up front; an exact kind-and-name match recurses structurally;
otherwise two primitives are compatible when both are numeric. -/
def isCompatibleWith : SemanticType → SemanticType → Bool
  | .errorType, _ => false
  | _, .errorType => false
  | .primitive n c, .primitive m d =>
      if n = m then true
      else
        ((SemanticType.primitive n c).isNumberType
           || (SemanticType.primitive n c).isFloatingPointType)
          && ((SemanticType.primitive m d).isNumberType
           || (SemanticType.primitive m d).isFloatingPointType)
  | .voidT, .voidT => true
  | .arrayT e _, .arrayT f _ => isCompatibleWith e f
  | .pointer pn p _, .pointer qn q _ =>
      if pn.ptrName = qn.ptrName then isCompatibleWith p q else false
  | .functionT ps r, .functionT qs s =>
      isCompatibleWith r s && compatParams ps qs
  | _, _ => false

/-- The parameter loop of isCompatibleWith for function types: equal
arity and pairwise compatibility. -/
def compatParams : List SemanticType → List SemanticType → Bool
  | [], [] => true
  | p :: ps, q :: qs => isCompatibleWith p q && compatParams ps qs
  | _, _ => false

end

mutual

/-- SemanticType::toString. -/
def toStr : SemanticType → String
  | .primitive n _ => n
  | .voidT => "void"
  | .arrayT e _ => "[" ++ toStr e ++ "]"
  | .pointer _ p _ => "*" ++ toStr p
  | .functionT ps r => "fn(" ++ paramsStr ps ++ ") -> " ++ toStr r
  | .errorType => "<error>"

/-- The comma-joined parameter list inside SemanticType::toString. -/
def paramsStr : List SemanticType → String
  | [] => ""
  | [p] => toStr p
  | p :: ps => toStr p ++ ", " ++ paramsStr ps

end

end SemanticType

/-- TypeChecker::numericRank: the rank table keyed on the type's name,
0 when absent. -/
def numericRank (t : SemanticType) : Nat :=
  (([("i8", 1), ("u8", 1), ("i16", 2), ("u16", 2),
     ("i32", 3), ("u32", 3), ("i64", 4), ("u64", 4),
     ("f32", 5), ("f64", 6)] : List (String × Nat)).lookup t.name).getD 0

/-- TypeChecker::commonNumericTypeName: empty when either side is not
numeric; float-dominant, f64 over f32; otherwise the wider integer by
rank, the left argument winning ties. -/
def commonNumericTypeName (a b : SemanticType) : String :=
  if !((a.isNumberType || a.isFloatingPointType)
        && (b.isNumberType || b.isFloatingPointType)) then
    ""
  else if a.isFloatingPointType || b.isFloatingPointType then
    if a.name = "f64" || b.name = "f64" then "f64" else "f32"
  else if numericRank b ≤ numericRank a then a.name
  else b.name

/-- TypeChecker::isNullComparison: one side a pointer, the other the
primitive named null. -/
def isNullComparison (l r : SemanticType) : Bool :=
  let leftPtr := match l with | .pointer _ _ _ => true | _ => false
  let rightPtr := match r with | .pointer _ _ _ => true | _ => false
  let leftNull := match l with | .primitive n _ => n = "null" | _ => false
  let rightNull := match r with | .primitive n _ => n = "null" | _ => false
  (leftPtr && rightNull) || (rightPtr && leftNull)

/-- The names accepted on the left of a shift in
TypeChecker::visit(BinaryExpression) (the eight integer widths). -/
def shiftIntNames : List String :=
  ["i8", "i16", "i32", "i64", "u8", "u16", "u32", "u64"]

/-- The names accepted by the logical-operator branch of
TypeChecker::visit(BinaryExpression) besides bool. -/
def logicalNumericNames : List String :=
  ["i8", "i16", "i32", "i64", "u8", "u16", "u32", "u64", "f32", "f64"]

/-- The binary operator tokens that reach
TypeChecker::visit(BinaryExpression). -/
inductive BinOpTok where
  | plus | minus | multiply | divide | modulo | power
  | shl | shr
  | eq | ne | lt | le | gt | ge
  | logicalAnd | logicalOr
deriving Repr, DecidableEq

/-- TypeChecker::visit(BinaryExpression), given the two operand types:
the resulting expression type together with the diagnostics reported,
switch case by switch case. -/
def typeBinary (op : BinOpTok) (l r : SemanticType) :
    SemanticType × List String :=
  match op with
  | .plus | .minus | .multiply | .divide | .modulo | .power =>
    if (l.isNumberType || l.isFloatingPointType)
        && (r.isNumberType || r.isFloatingPointType) then
      let common := commonNumericTypeName l r
      if common ≠ "" then (SemanticType.primitive common false, [])
      else (l, [])
    else
      (SemanticType.errorType,
       ["Invalid operands for arithmetic operation: "
          ++ l.toStr ++ " and " ++ r.toStr])
  | .shl | .shr =>
    if l.isCompatibleWith r && shiftIntNames.contains l.name then
      (l, [])
    else
      (SemanticType.errorType, ["Invalid operands for bitwise shift operation"])
  | .eq | .ne | .lt | .le | .gt | .ge =>
    if isNullComparison l r then
      (SemanticType.primitive "bool" false, [])
    else if (l.isNumberType || l.isFloatingPointType)
        && (r.isNumberType || r.isFloatingPointType) then
      (SemanticType.primitive "bool" false, [])
    else if l.isCompatibleWith r then
      (SemanticType.primitive "bool" false, [])
    else
      (SemanticType.errorType,
       ["Cannot compare incompatible types: " ++ l.toStr ++ " and " ++ r.toStr])
  | .logicalAnd | .logicalOr =>
    if l.name = "bool" && r.name = "bool" then
      (SemanticType.primitive "bool" false, [])
    else if l.isCompatibleWith r && logicalNumericNames.contains l.name then
      (SemanticType.primitive "bool" false, [])
    else
      (SemanticType.errorType,
       ["Logical operators require boolean or numeric operands"])

/-- The ten numeric primitive names (integers and floats). -/
def numericNames : List String :=
  ["i8", "i16", "i32", "i64", "u8", "u16", "u32", "u64", "f32", "f64"]

/-! ## Module visibility and exports (type_checker.cpp) -/

/-- A source location (filename, line, column, byte offset). -/
structure SourceLocation where
  filename : String := ""
  line : Nat := 1
  column : Nat := 1
  offset : Nat := 0

/-- The semantic analyzer's Symbol record. -/
structure Symbol where
  name : String
  type : SemanticType
  is_mutable : Bool := false
  is_initialized : Bool := false
  declared_module : String := ""
  is_exported : Bool := false
  declaration_location : SourceLocation := {}

/-- One entry of a module's import table. -/
structure ImportInfo where
  module_path : String
  items : List String := []
  is_wildcard : Bool := false

/-- TypeChecker::isSymbolVisibleInCurrentModule.  Built-ins (empty
declared_module) and same-module symbols are always visible; otherwise
the symbol must be exported and the current module must hold an import
of its module that is wildcard or lists the symbol's name. -/
def isSymbolVisibleInCurrentModule (sym : Symbol) (current_module_name : String)
    (module_imports : List (String × List ImportInfo)) : Bool :=
  if sym.declared_module = "" then
    true
  else if sym.declared_module = current_module_name then
    true
  else if !sym.is_exported then
    false
  else
    match module_imports.lookup current_module_name with
    | none => false
    | some imports =>
        imports.any fun imp =>
          imp.module_path = sym.declared_module
            && (imp.is_wildcard || imp.items.contains sym.name)

/-- The copy of a symbol placed in the export table by
TypeChecker::collectModuleExports. -/
def exportCopy (s : Symbol) : Symbol :=
  { name := s.name, type := s.type, is_mutable := s.is_mutable,
    declaration_location := s.declaration_location,
    declared_module := s.declared_module, is_exported := true,
    is_initialized := s.is_initialized }

/-- TypeChecker::collectModuleExports: scan the global scope and copy
every symbol whose is_exported flag is set.  (The scan does not consult
declared_module.) -/
def collectModuleExports (globals : List (String × Symbol)) :
    List (String × Symbol) :=
  (globals.filter fun p => p.2.is_exported).map fun p => (p.1, exportCopy p.2)

/-- Modelled from the spec: the visibility formula stated by the claim,
S.is_exported and (M = N or N has an import of M that is wildcard or
lists S.name).  Kept separate from the code's
isSymbolVisibleInCurrentModule for comparison. -/
def claimVisible (sym : Symbol) (current_module_name : String)
    (module_imports : List (String × List ImportInfo)) : Bool :=
  sym.is_exported
    && (sym.declared_module = current_module_name
      || ((module_imports.lookup current_module_name).getD []).any fun imp =>
            imp.module_path = sym.declared_module
              && (imp.is_wildcard || imp.items.contains sym.name))

/-- Modelled from the spec: the export table the claim describes for
module M, the global symbols with declared_module = M and is_exported. -/
def claimExports (moduleName : String) (globals : List (String × Symbol)) :
    List (String × Symbol) :=
  globals.filter fun p =>
    p.2.declared_module = moduleName && p.2.is_exported

/-! ## Block comments (the lexer variant matching lexer.h)

Lexer::skipBlockComment is entered right after the opening pair of
characters has been consumed, with nesting_level starting at 1.  The
loop below carries the remaining characters and the nesting level,
advancing two characters over an opener or closer and one otherwise,
exactly as the C++ loop does. -/

/-- The while loop of Lexer::skipBlockComment: returns the characters
remaining after the loop and the final nesting level.  peek and
peekNext of the C++ become the first two characters of the remaining
list (peekNext past the end compares unequal, as the C++ null sentinel
does). -/
def skipBlockLoop : List Char → Nat → List Char × Nat
  | cs, 0 => (cs, 0)
  | [], n + 1 => ([], n + 1)
  | [_], n + 1 => skipBlockLoop [] (n + 1)
  | c :: d :: cs, n + 1 =>
    if c = '/' ∧ d = '*' then skipBlockLoop cs (n + 2)
    else if c = '*' ∧ d = '/' then skipBlockLoop cs n
    else skipBlockLoop (d :: cs) (n + 1)

/-- Lexer::skipBlockComment on the characters following the opener:
the characters left for the rest of the lexer and the error
diagnostics reported ("Unterminated block comment" when the input
ended with the comment still open). -/
def skipBlockComment (cs : List Char) : List Char × List String :=
  let r := skipBlockLoop cs 1
  (r.1, if 0 < r.2 then ["Unterminated block comment"] else [])

/-- Modelled from the spec: a nesting block comment body that closes,
counting opener and closer pairs.  NestedComment cs rest holds when the
characters cs begin a properly closed comment body (the opener itself
already consumed) whose matching closer leaves rest. -/
inductive NestedComment : List Char → List Char → Prop where
  | close (rest : List Char) : NestedComment ('*' :: '/' :: rest) rest
  | nest {inner mid rest : List Char} :
      NestedComment inner mid → NestedComment mid rest →
      NestedComment ('/' :: '*' :: inner) rest
  | step {c : Char} {cs rest : List Char} :
      ¬ (c = '/' ∧ cs.head? = some '*') →
      ¬ (c = '*' ∧ cs.head? = some '/') →
      NestedComment cs rest → NestedComment (c :: cs) rest

/-! ## IR code generation (the llvm_codegen.cpp variant matching
llvm_codegen.h)

LLVM types are modelled by width-indexed integer types, the two float
types, pointers and void; LLVM values by the instruction trees the
builder creates, each conversion carrying its target type. -/

inductive IRType where
  | int (bits : Nat)
  | floatT
  | doubleT
  | ptr
  | voidT
deriving Repr, DecidableEq

namespace IRType

/-- llvm::Type::isIntegerTy. -/
def isIntegerTy : IRType → Bool
  | .int _ => true
  | _ => false

/-- llvm::Type::isFloatingPointTy. -/
def isFloatingPointTy : IRType → Bool
  | .floatT => true
  | .doubleT => true
  | _ => false

/-- llvm::Type::isPointerTy. -/
def isPointerTy : IRType → Bool
  | .ptr => true
  | _ => false

/-- The integer bit width (only meaningful on integer types). -/
def bitWidth : IRType → Nat
  | .int w => w
  | _ => 0

end IRType

/-- LLVMCodeGenerator::isNumericType. -/
def isNumericType (t : IRType) : Bool :=
  t.isIntegerTy || t.isFloatingPointTy

/-- LLVMCodeGenerator::getNumericTypeRank: i1 ranks 0, the four
standard widths 1 to 4 (other widths default to the i32 rank), float 5,
double 6, everything else 0. -/
def getNumericTypeRank (t : IRType) : Nat :=
  match t with
  | .int 1 => 0
  | .int 8 => 1
  | .int 16 => 2
  | .int 32 => 3
  | .int 64 => 4
  | .int _ => 3
  | .floatT => 5
  | .doubleT => 6
  | _ => 0

/-- LLVMCodeGenerator::getCommonNumericType: none for non-numeric
operands; double if either side is double, float if either side is
float; otherwise the operand type of greater rank, the left one
winning ties. -/
def getCommonNumericType (l r : IRType) : Option IRType :=
  if !isNumericType l || !isNumericType r then
    none
  else if l.isFloatingPointTy || r.isFloatingPointTy then
    if l = .doubleT || r = .doubleT then some .doubleT
    else some .floatT
  else if getNumericTypeRank r ≤ getNumericTypeRank l then some l
  else some r

/-- Comparison predicates of the integer and float compare
instructions. -/
inductive CmpPred where
  | slt | sle | sgt | sge | ieq | ine
  | olt | ole | ogt | oge | oeq | one_
deriving Repr, DecidableEq

/-- SSA values as the instruction trees the IRBuilder creates. -/
inductive IRValue where
  | inp (t : IRType)
  | constInt (t : IRType) (v : Int)
  | sext (v : IRValue) (t : IRType)
  | trunc (v : IRValue) (t : IRType)
  | sitofp (v : IRValue) (t : IRType)
  | fpext (v : IRValue) (t : IRType)
  | add (a b : IRValue) | sub (a b : IRValue) | mul (a b : IRValue)
  | sdiv (a b : IRValue) | srem (a b : IRValue)
  | shl (a b : IRValue) | ashr (a b : IRValue)
  | fadd (a b : IRValue) | fsub (a b : IRValue) | fmul (a b : IRValue)
  | fdiv (a b : IRValue)
  | icmp (p : CmpPred) (a b : IRValue)
  | fcmp (p : CmpPred) (a b : IRValue)
  | andOp (a b : IRValue) | orOp (a b : IRValue)
deriving Repr, DecidableEq

namespace IRValue

/-- llvm::Value::getType on the modelled instruction trees. -/
def getType : IRValue → IRType
  | .inp t => t
  | .constInt t _ => t
  | .sext _ t => t
  | .trunc _ t => t
  | .sitofp _ t => t
  | .fpext _ t => t
  | .add a _ => getType a
  | .sub a _ => getType a
  | .mul a _ => getType a
  | .sdiv a _ => getType a
  | .srem a _ => getType a
  | .shl a _ => getType a
  | .ashr a _ => getType a
  | .fadd a _ => getType a
  | .fsub a _ => getType a
  | .fmul a _ => getType a
  | .fdiv a _ => getType a
  | .icmp _ _ _ => .int 1
  | .fcmp _ _ _ => .int 1
  | .andOp a _ => getType a
  | .orOp a _ => getType a

end IRValue

/-- One side of LLVMCodeGenerator::promoteToCommonType: convert a value
to the common type when its type differs, choosing signed-int-to-float,
fp-extend, sign-extend or truncate by the case analysis of the C++. -/
def promoteOperand (v : IRValue) (common : IRType) : IRValue :=
  let t := v.getType
  if t = common then v
  else if t.isIntegerTy && common.isFloatingPointTy then
    .sitofp v common
  else if t.isFloatingPointTy && common.isFloatingPointTy then
    .fpext v common
  else if t.isIntegerTy && common.isIntegerTy then
    if t.bitWidth < common.bitWidth then .sext v common
    else if common.bitWidth < t.bitWidth then .trunc v common
    else v
  else v

/-- LLVMCodeGenerator::promoteToCommonType: none when there is no
common numeric type, else both operands converted to it. -/
def promoteToCommonType (l r : IRValue) : Option (IRValue × IRValue) :=
  match getCommonNumericType l.getType r.getType with
  | none => none
  | some common => some (promoteOperand l common, promoteOperand r common)

/-- LLVMCodeGenerator::generateArithmeticOperation: the integer or
float instruction for the operator, none when the operator is not
arithmetic for the common type. -/
def generateArithmeticOperation (op : BinOpTok) (l r : IRValue)
    (common : IRType) : Option IRValue :=
  if common.isIntegerTy then
    match op with
    | .plus => some (.add l r)
    | .minus => some (.sub l r)
    | .multiply => some (.mul l r)
    | .divide => some (.sdiv l r)
    | .modulo => some (.srem l r)
    | .shl => some (.shl l r)
    | .shr => some (.ashr l r)
    | _ => none
  else if common.isFloatingPointTy then
    match op with
    | .plus => some (.fadd l r)
    | .minus => some (.fsub l r)
    | .multiply => some (.fmul l r)
    | .divide => some (.fdiv l r)
    | _ => none
  else none

/-- LLVMCodeGenerator::generateComparisonOperation. -/
def generateComparisonOperation (op : BinOpTok) (l r : IRValue) :
    Option IRValue :=
  let lt := l.getType
  if lt.isIntegerTy && lt ≠ .int 1 then
    match op with
    | .lt => some (.icmp .slt l r)
    | .le => some (.icmp .sle l r)
    | .gt => some (.icmp .sgt l r)
    | .ge => some (.icmp .sge l r)
    | .eq => some (.icmp .ieq l r)
    | .ne => some (.icmp .ine l r)
    | _ => none
  else if lt.isFloatingPointTy then
    match op with
    | .lt => some (.fcmp .olt l r)
    | .le => some (.fcmp .ole l r)
    | .gt => some (.fcmp .ogt l r)
    | .ge => some (.fcmp .oge l r)
    | .eq => some (.fcmp .oeq l r)
    | .ne => some (.fcmp .one_ l r)
    | _ => none
  else if lt.isPointerTy || r.getType.isPointerTy then
    match op with
    | .eq => some (.icmp .ieq l r)
    | .ne => some (.icmp .ine l r)
    | _ => none
  else none

/-- LLVMCodeGenerator::generateBooleanOperation. -/
def generateBooleanOperation (op : BinOpTok) (l r : IRValue) :
    Option IRValue :=
  let lt := l.getType
  if lt = IRType.int 1 then
    match op with
    | .logicalAnd => some (.andOp l r)
    | .logicalOr => some (.orOp l r)
    | _ => none
  else if lt.isIntegerTy then
    let lb := IRValue.icmp .ine l (.constInt lt 0)
    let rb := IRValue.icmp .ine r (.constInt r.getType 0)
    match op with
    | .logicalAnd => some (.andOp lb rb)
    | .logicalOr => some (.orOp lb rb)
    | _ => none
  else none

/-- LLVMCodeGenerator::visit(BinaryExpression): promote mixed numeric
operands to the common type, then dispatch to the arithmetic,
comparison, boolean and pointer-comparison helpers in order.  none
models the reported codegen error paths. -/
def visitBinary (op : BinOpTok) (l r : IRValue) : Option IRValue :=
  let left_type := l.getType
  let right_type := r.getType
  let promoted : Option (IRValue × IRValue × IRType) :=
    if left_type ≠ right_type && isNumericType left_type
        && isNumericType right_type then
      match promoteToCommonType l r with
      | none => none
      | some (pl, pr) => some (pl, pr, pl.getType)
    else some (l, r, left_type)
  match promoted with
  | none => none
  | some (lv, rv, common) =>
    if op = .power then none
    else
      match generateArithmeticOperation op lv rv common with
      | some v => some v
      | none =>
        match generateComparisonOperation op lv rv with
        | some v => some v
        | none =>
          match generateBooleanOperation op lv rv with
          | some v => some v
          | none =>
            if left_type.isPointerTy || right_type.isPointerTy then
              match op with
              | .eq => generateComparisonOperation op lv rv
              | .ne => generateComparisonOperation op lv rv
              | _ => none
            else none

/-! ## Module loading (main.cpp)

The loader is modelled over an environment mapping module paths to the
parsed module they resolve to (a path absent from the environment is
one resolveModulePath cannot find).  Lexing and parsing are taken to
succeed for environment modules: the claims about the loader concern
cycle detection, duplicate loads and the implicit stdlib import, none
of which depend on diagnostics from those stages. -/

/-- A wildcard flag plus module path, as ImportDeclaration stores it. -/
structure ImportDecl where
  module_path : String
  items : List String := []
  is_wildcard : Bool := false
deriving Repr, DecidableEq

/-- A parsed module: its import declarations in source order. -/
structure ModuleAst where
  imports : List ImportDecl
deriving Repr, DecidableEq

/-- The environment: which module paths resolve, and to what module. -/
def ModuleEnv := List (String × ModuleAst)

/-- ModuleManager's mutable state: the loaded-modules map in insertion
order, the loading set, and the messages printed to standard error. -/
structure LoaderState where
  loaded : List (String × ModuleAst) := []
  loading : List String := []
  cerr : List String := []
deriving Repr, DecidableEq

/-- ModuleManager::loadModule.  Already-loaded paths and cycle hits
return no module; otherwise the module is resolved, marked loading, its
dependencies are loaded (successful ones entering the loaded map), and
the module itself is returned.  Fuel bounds the import-depth
recursion. -/
def loadModule (env : ModuleEnv) :
    Nat → LoaderState → String → LoaderState × Option ModuleAst
  | 0, st, _ => (st, none)
  | fuel + 1, st, module_path =>
    if (st.loaded.lookup module_path).isSome then
      (st, none)
    else if st.loading.contains module_path then
      ({ st with cerr := st.cerr
          ++ ["Error: Circular dependency detected for module: " ++ module_path] },
       none)
    else
      match env.lookup module_path with
      | none =>
          ({ st with cerr := st.cerr
              ++ ["Error: Could not find module: " ++ module_path] }, none)
      | some m =>
          let st1 := { st with loading := module_path :: st.loading }
          let st2 := m.imports.foldl
            (fun acc imp =>
              let r := loadModule env fuel acc imp.module_path
              match r.2 with
              | some dep => { r.1 with loaded := r.1.loaded ++ [(imp.module_path, dep)] }
              | none => r.1)
            st1
          ({ st2 with loading := st2.loading.filter (· ≠ module_path) }, some m)

/-- The result of ModuleManager::createProgram: either the process has
exited with code 1 (carrying everything printed so far), or a program
was assembled.  Both variants carry the main module's final import list
and the loader state. -/
inductive CreateResult where
  | exitedOne (mainImports : List ImportDecl) (st : LoaderState)
  | ok (mainImports : List ImportDecl) (modules : List (String × ModuleAst))
      (st : LoaderState)

/-- The loop over the main module's imports at the end of
ModuleManager::createProgram: each import is loaded; a load returning
no module prints "Failed to load module" and exits with code 1. -/
def loadMainImports (env : ModuleEnv) (fuel : Nat) (mainImports : List ImportDecl) :
    List ImportDecl → LoaderState → CreateResult
  | [], st => .ok mainImports st.loaded st
  | imp :: rest, st =>
    let r := loadModule env fuel st imp.module_path
    match r.2 with
    | some m =>
        loadMainImports env fuel mainImports rest
          { r.1 with loaded := r.1.loaded ++ [(imp.module_path, m)] }
    | none =>
        .exitedOne mainImports
          { r.1 with cerr := r.1.cerr
              ++ ["Failed to load module: " ++ imp.module_path] }

/-- ModuleManager::createProgram, after the main module has been read
and parsed: optionally auto-import the stdlib module io (pushing an
implicit wildcard import declaration onto the back of the main
module's import list when io loads), then load every import of the
main module, exiting with code 1 on any failed load. -/
def createProgram (env : ModuleEnv) (fuel : Nat) (mainImports : List ImportDecl)
    (auto_import_stdlib : Bool) : CreateResult :=
  let stdlib_modules := ["io"]
  let start : List ImportDecl × LoaderState :=
    if auto_import_stdlib then
      stdlib_modules.foldl
        (fun acc stdlib_module =>
          let r := loadModule env fuel acc.2 stdlib_module
          match r.2 with
          | some m =>
              (acc.1 ++ [{ module_path := stdlib_module, items := [],
                           is_wildcard := true }],
               { r.1 with loaded := r.1.loaded ++ [(stdlib_module, m)] })
          | none => (acc.1, r.1))
        (mainImports, {})
    else (mainImports, {})
  loadMainImports env fuel start.1 start.1 start.2

/-- The main module's final import list of a createProgram outcome. -/
def mainImportsOf : CreateResult → List ImportDecl
  | .exitedOne mi _ => mi
  | .ok mi _ _ => mi

/-- Whether createProgram reached the exit-with-code-1 path. -/
def isExitedOne : CreateResult → Bool
  | .exitedOne _ _ => true
  | .ok _ _ _ => false

/-- Everything printed to standard error by a createProgram outcome. -/
def cerrOf : CreateResult → List String
  | .exitedOne _ st => st.cerr
  | .ok _ _ st => st.cerr

/-! ## Expression parsing (parser.cpp)

The recursive-descent expression parser, one function per precedence
level as in the C++, over a token list (the end of the list standing
for the EOF token).  Parse errors (the thrown exceptions) are modelled
as none.  Fuel bounds the recursion; every claim instance is evaluated
with ample fuel. -/

/-- The token kinds the expression and type grammar consumes. -/
inductive TokT where
  | IDENTIFIER | SELF
  | INTEGER_LITERAL | FLOAT_LITERAL | STRING_LITERAL
  | BOOLEAN_LITERAL | NULL_LITERAL
  | ASSIGN | PLUS_ASSIGN | MINUS_ASSIGN | MULTIPLY_ASSIGN
  | DIVIDE_ASSIGN | MODULO_ASSIGN
  | AS
  | LOGICAL_OR | LOGICAL_AND
  | NOT_EQUAL | EQUAL
  | GREATER | GREATER_EQUAL | LESS | LESS_EQUAL
  | BITWISE_LEFT_SHIFT | BITWISE_RIGHT_SHIFT
  | MINUS | PLUS
  | DIVIDE | MULTIPLY | MODULO
  | POWER
  | LOGICAL_NOT
  | LEFT_PAREN | RIGHT_PAREN | LEFT_BRACKET | RIGHT_BRACKET
  | COMMA | MEMBER_ACCESS | INCREMENT | DECREMENT
  | CAST | TRY_CAST
  | CPTR | UNIQUE | SHARED | WEAK
  | I8 | I16 | I32 | I64 | U8 | U16 | U32 | U64
  | F32 | F64 | BOOL | STRING | VOID | RAW_VA_LIST
  | NEWLINE
deriving Repr, DecidableEq

/-- A token: kind, lexeme and the integer literal payload. -/
structure Token where
  t : TokT
  lexeme : String := ""
  int_value : Int := 0
deriving Repr, DecidableEq

/-- The AST type nodes the type grammar produces. -/
inductive TypeAst where
  | prim (t : TokT)
  | generic (name : String) (args : List TypeAst)
  | arr (base : TypeAst) (size : Int)
  | ptrT (pointee : TypeAst) (kind : TokT)
deriving Repr

/-- The AST expression nodes the expression grammar produces. -/
inductive Expr where
  | lit (tok : Token)
  | identE (name : String)
  | binary (l : Expr) (op : TokT) (r : Expr)
  | unary (op : TokT) (e : Expr)
  | call (callee : Expr) (args : List Expr)
  | member (obj : Expr) (name : String)
  | index (obj : Expr) (idx : Expr)
  | assign (l : Expr) (op : TokT) (r : Expr)
  | postfixE (e : Expr) (op : TokT)
  | castE (target : TypeAst) (e : Expr) (isSafe : Bool)
  | asE (e : Expr) (target : TypeAst)
deriving Repr

/-- Parser::check on the remaining tokens. -/
def checkTok (t : TokT) : List Token → Bool
  | tok :: _ => tok.t = t
  | [] => false

/-- Parser::skipNewlines. -/
def skipNewlines : List Token → List Token
  | tok :: rest => if tok.t = .NEWLINE then skipNewlines rest else tok :: rest
  | [] => []

/-- Parser::match on a set of token kinds: the matched token and the
rest, when the current token is one of them. -/
def matchTok (ts : List Token) (kinds : List TokT) :
    Option (Token × List Token) :=
  match ts with
  | tok :: rest => if kinds.contains tok.t then some (tok, rest) else none
  | [] => none

/-- Parser::consume: the expected kind or a parse error. -/
def consumeTok (ts : List Token) (kind : TokT) : Option (Token × List Token) :=
  match ts with
  | tok :: rest => if tok.t = kind then some (tok, rest) else none
  | [] => none

mutual

/-- Parser::parseExpression. -/
def parseExpression : Nat → List Token → Option (Expr × List Token)
  | 0, _ => none
  | fuel + 1, ts => parseAssignment fuel ts

/-- Parser::parseAssignment (right associative). -/
def parseAssignment : Nat → List Token → Option (Expr × List Token)
  | 0, _ => none
  | fuel + 1, ts =>
    match parseAsExpression fuel ts with
    | none => none
    | some (e, ts1) =>
      match matchTok ts1 [.ASSIGN, .PLUS_ASSIGN, .MINUS_ASSIGN,
                          .MULTIPLY_ASSIGN, .DIVIDE_ASSIGN, .MODULO_ASSIGN] with
      | some (optok, ts2) =>
        match parseAssignment fuel ts2 with
        | none => none
        | some (r, ts3) => some (.assign e optok.t r, ts3)
      | none => some (e, ts1)

/-- Parser::parseAsExpression. -/
def parseAsExpression : Nat → List Token → Option (Expr × List Token)
  | 0, _ => none
  | fuel + 1, ts =>
    match parseLogicalOr fuel ts with
    | none => none
    | some (e, ts1) => parseAsLoop fuel e ts1

/-- The while loop of Parser::parseAsExpression. -/
def parseAsLoop (fuel : Nat) (e : Expr) (ts : List Token) :
    Option (Expr × List Token) :=
  match fuel with
  | 0 => none
  | fuel + 1 =>
    match matchTok ts [.AS] with
    | some (_, ts1) =>
      match parseType fuel ts1 with
      | none => none
      | some (ty, ts2) => parseAsLoop fuel (.asE e ty) ts2
    | none => some (e, ts)

/-- Parser::parseLogicalOr. -/
def parseLogicalOr : Nat → List Token → Option (Expr × List Token)
  | 0, _ => none
  | fuel + 1, ts =>
    match parseLogicalAnd fuel ts with
    | none => none
    | some (e, ts1) => parseLogicalOrLoop fuel e ts1

/-- The while loop of Parser::parseLogicalOr. -/
def parseLogicalOrLoop (fuel : Nat) (e : Expr) (ts : List Token) :
    Option (Expr × List Token) :=
  match fuel with
  | 0 => none
  | fuel + 1 =>
    match matchTok ts [.LOGICAL_OR] with
    | some (optok, ts1) =>
      match parseLogicalAnd fuel ts1 with
      | none => none
      | some (r, ts2) => parseLogicalOrLoop fuel (.binary e optok.t r) ts2
    | none => some (e, ts)

/-- Parser::parseLogicalAnd. -/
def parseLogicalAnd : Nat → List Token → Option (Expr × List Token)
  | 0, _ => none
  | fuel + 1, ts =>
    match parseEquality fuel ts with
    | none => none
    | some (e, ts1) => parseLogicalAndLoop fuel e ts1

/-- The while loop of Parser::parseLogicalAnd. -/
def parseLogicalAndLoop (fuel : Nat) (e : Expr) (ts : List Token) :
    Option (Expr × List Token) :=
  match fuel with
  | 0 => none
  | fuel + 1 =>
    match matchTok ts [.LOGICAL_AND] with
    | some (optok, ts1) =>
      match parseEquality fuel ts1 with
      | none => none
      | some (r, ts2) => parseLogicalAndLoop fuel (.binary e optok.t r) ts2
    | none => some (e, ts)

/-- Parser::parseEquality. -/
def parseEquality : Nat → List Token → Option (Expr × List Token)
  | 0, _ => none
  | fuel + 1, ts =>
    match parseComparison fuel ts with
    | none => none
    | some (e, ts1) => parseEqualityLoop fuel e ts1

/-- The while loop of Parser::parseEquality. -/
def parseEqualityLoop (fuel : Nat) (e : Expr) (ts : List Token) :
    Option (Expr × List Token) :=
  match fuel with
  | 0 => none
  | fuel + 1 =>
    match matchTok ts [.NOT_EQUAL, .EQUAL] with
    | some (optok, ts1) =>
      match parseComparison fuel ts1 with
      | none => none
      | some (r, ts2) => parseEqualityLoop fuel (.binary e optok.t r) ts2
    | none => some (e, ts)

/-- Parser::parseComparison. -/
def parseComparison : Nat → List Token → Option (Expr × List Token)
  | 0, _ => none
  | fuel + 1, ts =>
    match parseBitwiseShift fuel ts with
    | none => none
    | some (e, ts1) => parseComparisonLoop fuel e ts1

/-- The while loop of Parser::parseComparison. -/
def parseComparisonLoop (fuel : Nat) (e : Expr) (ts : List Token) :
    Option (Expr × List Token) :=
  match fuel with
  | 0 => none
  | fuel + 1 =>
    match matchTok ts [.GREATER, .GREATER_EQUAL, .LESS, .LESS_EQUAL] with
    | some (optok, ts1) =>
      match parseBitwiseShift fuel ts1 with
      | none => none
      | some (r, ts2) => parseComparisonLoop fuel (.binary e optok.t r) ts2
    | none => some (e, ts)

/-- Parser::parseBitwiseShift. -/
def parseBitwiseShift : Nat → List Token → Option (Expr × List Token)
  | 0, _ => none
  | fuel + 1, ts =>
    match parseTerm fuel ts with
    | none => none
    | some (e, ts1) => parseBitwiseShiftLoop fuel e ts1

/-- The while loop of Parser::parseBitwiseShift. -/
def parseBitwiseShiftLoop (fuel : Nat) (e : Expr) (ts : List Token) :
    Option (Expr × List Token) :=
  match fuel with
  | 0 => none
  | fuel + 1 =>
    match matchTok ts [.BITWISE_LEFT_SHIFT, .BITWISE_RIGHT_SHIFT] with
    | some (optok, ts1) =>
      match parseTerm fuel ts1 with
      | none => none
      | some (r, ts2) => parseBitwiseShiftLoop fuel (.binary e optok.t r) ts2
    | none => some (e, ts)

/-- Parser::parseTerm. -/
def parseTerm : Nat → List Token → Option (Expr × List Token)
  | 0, _ => none
  | fuel + 1, ts =>
    match parseFactor fuel ts with
    | none => none
    | some (e, ts1) => parseTermLoop fuel e ts1

/-- The while loop of Parser::parseTerm. -/
def parseTermLoop (fuel : Nat) (e : Expr) (ts : List Token) :
    Option (Expr × List Token) :=
  match fuel with
  | 0 => none
  | fuel + 1 =>
    match matchTok ts [.MINUS, .PLUS] with
    | some (optok, ts1) =>
      match parseFactor fuel ts1 with
      | none => none
      | some (r, ts2) => parseTermLoop fuel (.binary e optok.t r) ts2
    | none => some (e, ts)

/-- Parser::parseFactor. -/
def parseFactor : Nat → List Token → Option (Expr × List Token)
  | 0, _ => none
  | fuel + 1, ts =>
    match parsePower fuel ts with
    | none => none
    | some (e, ts1) => parseFactorLoop fuel e ts1

/-- The while loop of Parser::parseFactor. -/
def parseFactorLoop (fuel : Nat) (e : Expr) (ts : List Token) :
    Option (Expr × List Token) :=
  match fuel with
  | 0 => none
  | fuel + 1 =>
    match matchTok ts [.DIVIDE, .MULTIPLY, .MODULO] with
    | some (optok, ts1) =>
      match parsePower fuel ts1 with
      | none => none
      | some (r, ts2) => parseFactorLoop fuel (.binary e optok.t r) ts2
    | none => some (e, ts)

/-- Parser::parsePower (right associative). -/
def parsePower : Nat → List Token → Option (Expr × List Token)
  | 0, _ => none
  | fuel + 1, ts =>
    match parseUnary fuel ts with
    | none => none
    | some (e, ts1) =>
      match matchTok ts1 [.POWER] with
      | some (optok, ts2) =>
        match parsePower fuel ts2 with
        | none => none
        | some (r, ts3) => some (.binary e optok.t r, ts3)
      | none => some (e, ts1)

/-- Parser::parseUnary. -/
def parseUnary : Nat → List Token → Option (Expr × List Token)
  | 0, _ => none
  | fuel + 1, ts =>
    match matchTok ts [.LOGICAL_NOT, .MINUS] with
    | some (optok, ts1) =>
      match parseUnary fuel ts1 with
      | none => none
      | some (r, ts2) => some (.unary optok.t r, ts2)
    | none => parseCall fuel ts

/-- Parser::parseCall. -/
def parseCall : Nat → List Token → Option (Expr × List Token)
  | 0, _ => none
  | fuel + 1, ts =>
    match parsePrimary fuel ts with
    | none => none
    | some (e, ts1) => parseCallLoop fuel e ts1

/-- The postfix chain loop of Parser::parseCall: calls, member access,
indexing and postfix increment or decrement. -/
def parseCallLoop (fuel : Nat) (e : Expr) (ts : List Token) :
    Option (Expr × List Token) :=
  match fuel with
  | 0 => none
  | fuel + 1 =>
    match matchTok ts [.LEFT_PAREN] with
    | some (_, ts1) =>
      match parseArgumentList fuel ts1 with
      | none => none
      | some (args, ts2) =>
        match consumeTok ts2 .RIGHT_PAREN with
        | none => none
        | some (_, ts3) => parseCallLoop fuel (.call e args) ts3
    | none =>
    match matchTok ts [.MEMBER_ACCESS] with
    | some (_, ts1) =>
      match consumeTok ts1 .IDENTIFIER with
      | none => none
      | some (nameTok, ts2) => parseCallLoop fuel (.member e nameTok.lexeme) ts2
    | none =>
    match matchTok ts [.LEFT_BRACKET] with
    | some (_, ts1) =>
      match parseExpression fuel ts1 with
      | none => none
      | some (idx, ts2) =>
        match consumeTok ts2 .RIGHT_BRACKET with
        | none => none
        | some (_, ts3) => parseCallLoop fuel (.index e idx) ts3
    | none =>
    match matchTok ts [.INCREMENT, .DECREMENT] with
    | some (optok, ts1) => parseCallLoop fuel (.postfixE e optok.t) ts1
    | none => some (e, ts)

/-- Parser::parsePrimary: casts, literals, identifiers and
parenthesized expressions. -/
def parsePrimary : Nat → List Token → Option (Expr × List Token)
  | 0, _ => none
  | fuel + 1, ts =>
    match matchTok ts [.CAST, .TRY_CAST] with
    | some (castTok, ts1) =>
      let is_safe_cast := castTok.t = .TRY_CAST
      match consumeTok ts1 .LESS with
      | none => none
      | some (_, ts2) =>
        match parseType fuel ts2 with
        | none => none
        | some (ty, ts3) =>
          match consumeTok ts3 .GREATER with
          | none => none
          | some (_, ts4) =>
            match consumeTok ts4 .LEFT_PAREN with
            | none => none
            | some (_, ts5) =>
              match parseExpression fuel ts5 with
              | none => none
              | some (e, ts6) =>
                match consumeTok ts6 .RIGHT_PAREN with
                | none => none
                | some (_, ts7) => some (.castE ty e is_safe_cast, ts7)
    | none =>
    match matchTok ts [.BOOLEAN_LITERAL] with
    | some (tok, ts1) => some (.lit tok, ts1)
    | none =>
    match matchTok ts [.NULL_LITERAL] with
    | some (tok, ts1) => some (.lit tok, ts1)
    | none =>
    match matchTok ts [.INTEGER_LITERAL, .FLOAT_LITERAL, .STRING_LITERAL] with
    | some (tok, ts1) => some (.lit tok, ts1)
    | none =>
    match matchTok ts [.IDENTIFIER, .SELF] with
    | some (tok, ts1) => some (.identE tok.lexeme, ts1)
    | none =>
    match matchTok ts [.LEFT_PAREN] with
    | some (_, ts1) =>
      match parseExpression fuel ts1 with
      | none => none
      | some (e, ts2) =>
        match consumeTok ts2 .RIGHT_PAREN with
        | none => none
        | some (_, ts3) => some (e, ts3)
    | none => none

/-- Parser::parseArgumentList. -/
def parseArgumentList (fuel : Nat) (ts : List Token) :
    Option (List Expr × List Token) :=
  match fuel with
  | 0 => none
  | fuel + 1 =>
    let ts := skipNewlines ts
    if checkTok .RIGHT_PAREN ts then some ([], ts)
    else parseArgumentLoop fuel ts

/-- The argument loop of Parser::parseArgumentList. -/
def parseArgumentLoop (fuel : Nat) (ts : List Token) :
    Option (List Expr × List Token) :=
  match fuel with
  | 0 => none
  | fuel + 1 =>
    if ts.isEmpty then none
    else
      match parseExpression fuel ts with
      | none => none
      | some (e, ts1) =>
        if checkTok .RIGHT_PAREN ts1 then some ([e], ts1)
        else
          match consumeTok ts1 .COMMA with
          | none => none
          | some (_, ts2) =>
            match parseArgumentLoop fuel (skipNewlines ts2) with
            | none => none
            | some (es, ts3) => some (e :: es, ts3)

/-- Parser::parseType. -/
def parseType : Nat → List Token → Option (TypeAst × List Token)
  | 0, _ => none
  | fuel + 1, ts =>
    match matchTok ts [.CPTR, .UNIQUE, .SHARED, .WEAK] with
    | some (kindTok, ts1) =>
      match parseType fuel ts1 with
      | none => none
      | some (pointee, ts2) => some (.ptrT pointee kindTok.t, ts2)
    | none =>
      match parsePrimitiveType fuel ts with
      | none => none
      | some (base, ts1) =>
        match matchTok ts1 [.LEFT_BRACKET] with
        | some (_, ts2) =>
          match ts2 with
          | sizeTok :: _ =>
            if sizeTok.int_value ≤ 0 then none
            else
              match consumeTok ts2 .INTEGER_LITERAL with
              | none => none
              | some (sz, ts3) =>
                match consumeTok ts3 .RIGHT_BRACKET with
                | none => none
                | some (_, ts4) => some (.arr base sz.int_value, ts4)
          | [] => none
        | none => some (base, ts1)

/-- Parser::parsePrimitiveType. -/
def parsePrimitiveType : Nat → List Token → Option (TypeAst × List Token)
  | 0, _ => none
  | fuel + 1, ts =>
    match matchTok ts [.I8, .I16, .I32, .I64, .U8, .U16, .U32, .U64,
                       .F32, .F64, .BOOL, .STRING, .VOID, .SELF,
                       .RAW_VA_LIST] with
    | some (tok, ts1) => some (.prim tok.t, ts1)
    | none =>
      match matchTok ts [.IDENTIFIER] with
      | some (nameTok, ts1) =>
        if nameTok.lexeme = "void" then some (.prim .VOID, ts1)
        else
          match matchTok ts1 [.LESS] with
          | some (_, ts2) =>
            match parseTypeArgsLoop fuel ts2 with
            | none => none
            | some (args, ts3) =>
              match consumeTok ts3 .GREATER with
              | none => none
              | some (_, ts4) => some (.generic nameTok.lexeme args, ts4)
          | none => some (.prim .IDENTIFIER, ts1)
      | none => none

/-- The do-while loop over generic type arguments in
Parser::parsePrimitiveType. -/
def parseTypeArgsLoop (fuel : Nat) (ts : List Token) :
    Option (List TypeAst × List Token) :=
  match fuel with
  | 0 => none
  | fuel + 1 =>
    match parseType fuel ts with
    | none => none
    | some (ty, ts1) =>
      match matchTok ts1 [.COMMA] with
      | some (_, ts2) =>
        match parseTypeArgsLoop fuel ts2 with
        | none => none
        | some (tys, ts3) => some (ty :: tys, ts3)
      | none => some ([ty], ts1)

end

/-! ## Vocabulary for the claim statements -/

/-- The operand combinations the code's shift typing accepts: an
integer primitive on the left and an integer or float primitive on the
right. -/
def shiftAccepts (l r : SemanticType) : Bool :=
  match l, r with
  | .primitive n _, .primitive m _ =>
      SemanticType.integerNames.contains n
        && (SemanticType.integerNames.contains m
          || SemanticType.floatNames.contains m)
  | _, _ => false

/-- The conversion the claim describes for one operand being brought to
the common numeric type: unchanged when already there, integer to float
via signed-int-to-float, a float widened via fp-extend, a narrower
integer widened via sign-extend, a wider integer narrowed via
truncate. -/
def PromotedAs (v : IRValue) (common : IRType) (pv : IRValue) : Prop :=
  (v.getType = common ∧ pv = v)
  ∨ (v.getType.isIntegerTy = true ∧ common.isFloatingPointTy = true
      ∧ pv = .sitofp v common)
  ∨ (v.getType ≠ common ∧ v.getType.isFloatingPointTy = true
      ∧ common.isFloatingPointTy = true ∧ pv = .fpext v common)
  ∨ (v.getType.isIntegerTy = true ∧ common.isIntegerTy = true
      ∧ v.getType.bitWidth < common.bitWidth ∧ pv = .sext v common)
  ∨ (v.getType.isIntegerTy = true ∧ common.isIntegerTy = true
      ∧ common.bitWidth < v.getType.bitWidth ∧ pv = .trunc v common)

/-- The precedence ladder of the expression grammar, low to high. -/
def precOf : TokT → Nat
  | .ASSIGN | .PLUS_ASSIGN | .MINUS_ASSIGN
  | .MULTIPLY_ASSIGN | .DIVIDE_ASSIGN | .MODULO_ASSIGN => 1
  | .AS => 2
  | .LOGICAL_OR => 3
  | .LOGICAL_AND => 4
  | .NOT_EQUAL | .EQUAL => 5
  | .GREATER | .GREATER_EQUAL | .LESS | .LESS_EQUAL => 6
  | .BITWISE_LEFT_SHIFT | .BITWISE_RIGHT_SHIFT => 7
  | .MINUS | .PLUS => 8
  | .DIVIDE | .MULTIPLY | .MODULO => 9
  | .POWER => 10
  | _ => 0

/-- The assignment operator tokens. -/
def assignOps : List TokT :=
  [.ASSIGN, .PLUS_ASSIGN, .MINUS_ASSIGN,
   .MULTIPLY_ASSIGN, .DIVIDE_ASSIGN, .MODULO_ASSIGN]

/-- The binary operator tokens of the precedence ladder whose right
operand is an expression (every level except the as level, whose right
operand is a type). -/
def binaryOps : List TokT :=
  [.ASSIGN, .PLUS_ASSIGN, .MINUS_ASSIGN,
   .MULTIPLY_ASSIGN, .DIVIDE_ASSIGN, .MODULO_ASSIGN,
   .LOGICAL_OR, .LOGICAL_AND,
   .NOT_EQUAL, .EQUAL,
   .GREATER, .GREATER_EQUAL, .LESS, .LESS_EQUAL,
   .BITWISE_LEFT_SHIFT, .BITWISE_RIGHT_SHIFT,
   .MINUS, .PLUS,
   .DIVIDE, .MULTIPLY, .MODULO,
   .POWER]

/-- The node the parser builds for one application of a ladder
operator: an assignment node for the assignment level, a binary node
otherwise. -/
def mkNode (op : TokT) (l r : Expr) : Expr :=
  if assignOps.contains op then .assign l op r else .binary l op r

/-- An identifier token. -/
def identTok (s : String) : Token := { t := .IDENTIFIER, lexeme := s }

/-- An operator token. -/
def opTok (o : TokT) : Token := { t := o }

/-! ## Theorems -/

/-- C3 counterexample: commonNumericTypeName is not commutative.  At
the equal-rank pair i32 and u32 the left argument wins the tie, so the
two argument orders give different results. -/
theorem commonNumericType_asymmetric :
    commonNumericTypeName (.primitive "i32" false) (.primitive "u32" false) = "i32"
    ∧ commonNumericTypeName (.primitive "u32" false) (.primitive "i32" false) = "u32"
    ∧ ("i32" : String) ≠ "u32" :=
  ⟨rfl, rfl, by decide⟩

/-- C3 (amended): for numeric primitive types a and b, common(a,a) = a;
if either argument is a float type the result is a float type; the
rank of common(a,b) is never below the rank of either argument; and
common(a,b) = common(b,a) holds whenever the two ranks differ or the
two names coincide (equal-rank distinct pairs, i.e. a signed and
unsigned integer of the same width, resolve to the left argument). -/
theorem commonNumericType_amended (a b : String)
    (ha : a ∈ numericNames) (hb : b ∈ numericNames) :
    commonNumericTypeName (.primitive a false) (.primitive a false) = a
    ∧ ((SemanticType.floatNames.contains a || SemanticType.floatNames.contains b) = true →
        SemanticType.floatNames.contains
          (commonNumericTypeName (.primitive a false) (.primitive b false)) = true)
    ∧ numericRank (.primitive a false)
        ≤ numericRank (.primitive
            (commonNumericTypeName (.primitive a false) (.primitive b false)) false)
    ∧ numericRank (.primitive b false)
        ≤ numericRank (.primitive
            (commonNumericTypeName (.primitive a false) (.primitive b false)) false)
    ∧ ((numericRank (.primitive a false) ≠ numericRank (.primitive b false) ∨ a = b) →
        commonNumericTypeName (.primitive a false) (.primitive b false)
          = commonNumericTypeName (.primitive b false) (.primitive a false)) := by
  fin_cases ha <;> fin_cases hb <;> exact (by decide)

/-- Witness for the amended C3 theorem at a = i16, b = f32. -/
theorem commonNumericType_amended_witness :
    commonNumericTypeName (.primitive "i16" false) (.primitive "i16" false) = "i16"
    ∧ ((SemanticType.floatNames.contains "i16" || SemanticType.floatNames.contains "f32") = true →
        SemanticType.floatNames.contains
          (commonNumericTypeName (.primitive "i16" false) (.primitive "f32" false)) = true)
    ∧ numericRank (.primitive "i16" false)
        ≤ numericRank (.primitive
            (commonNumericTypeName (.primitive "i16" false) (.primitive "f32" false)) false)
    ∧ numericRank (.primitive "f32" false)
        ≤ numericRank (.primitive
            (commonNumericTypeName (.primitive "i16" false) (.primitive "f32" false)) false)
    ∧ ((numericRank (.primitive "i16" false) ≠ numericRank (.primitive "f32" false)
          ∨ "i16" = "f32") →
        commonNumericTypeName (.primitive "i16" false) (.primitive "f32" false)
          = commonNumericTypeName (.primitive "f32" false) (.primitive "i16" false)) :=
  commonNumericType_amended "i16" "f32" (by decide) (by decide)

/-- C4 counterexample: the error type is not accepted by the
compatibility check (isCompatibleWith rejects it against i32), and a
binary arithmetic operator whose left operand has the error type does
report a further diagnostic naming that operand. -/
theorem error_compat_counterexample :
    SemanticType.isCompatibleWith .errorType (.primitive "i32" false) = false
    ∧ typeBinary .plus .errorType (.primitive "i32" false)
        = (SemanticType.errorType,
           ["Invalid operands for arithmetic operation: <error> and i32"]) :=
  ⟨rfl, rfl⟩

/-- C4 (amended): the error type is compatible with nothing, in either
argument position, and a binary arithmetic operator with an error-typed
operand yields the error type while emitting an additional
diagnostic. -/
theorem error_compat_amended (t : SemanticType) :
    SemanticType.isCompatibleWith .errorType t = false
    ∧ SemanticType.isCompatibleWith t .errorType = false
    ∧ (typeBinary .plus .errorType t).1 = SemanticType.errorType
    ∧ (typeBinary .plus .errorType t).2 ≠ [] := by
  refine ⟨?_, ?_, ?_, ?_⟩
  · cases t <;> rfl
  · cases t <;> rfl
  · simp [typeBinary, SemanticType.isNumberType, SemanticType.isFloatingPointType]
  · simp [typeBinary, SemanticType.isNumberType, SemanticType.isFloatingPointType]

/-- C5 counterexample: a shift whose integer operands have different
widths (i16 shifted by i64), and even one whose right operand is a
float (i32 shifted by f64), are accepted without any diagnostic, the
result being the left operand's type. -/
theorem shift_width_counterexample :
    typeBinary .shl (.primitive "i16" false) (.primitive "i64" false)
      = (.primitive "i16" false, [])
    ∧ typeBinary .shl (.primitive "i32" false) (.primitive "f64" false)
      = (.primitive "i32" false, []) :=
  ⟨rfl, rfl⟩

/-- The shift branch's acceptance test coincides with shiftAccepts:
compatibility plus an integer-named left operand amounts to an integer
primitive on the left and any numeric primitive on the right. -/
theorem shiftCond_eq (l r : SemanticType) :
    (SemanticType.isCompatibleWith l r && shiftIntNames.contains l.name)
      = shiftAccepts l r := by
  have hp : ∀ pk : PtrKind, shiftIntNames.contains pk.ptrName = false := by
    intro pk; cases pk <;> rfl
  have hp' : ∀ pk : PtrKind, pk.ptrName ∉ shiftIntNames := by
    intro pk; cases pk <;> decide
  cases l with
  | primitive n c =>
    cases r with
    | primitive m d =>
      simp only [SemanticType.isCompatibleWith, shiftAccepts, SemanticType.name,
        SemanticType.isNumberType, SemanticType.isFloatingPointType,
        shiftIntNames, SemanticType.integerNames, SemanticType.floatNames]
      by_cases hnm : n = m
      · subst hnm
        by_cases hb : n ∈ (["i8", "i16", "i32", "i64",
                            "u8", "u16", "u32", "u64"] : List String)
        · simp [hb]
        · simp [hb]
      · by_cases hb : n ∈ (["i8", "i16", "i32", "i64",
                            "u8", "u16", "u32", "u64"] : List String)
        · simp [hb, hnm]
        · simp [hb]
    | arrayT e ic =>
      simp [SemanticType.isCompatibleWith, shiftAccepts]
    | pointer qk q d =>
      simp [SemanticType.isCompatibleWith, shiftAccepts]
    | functionT ps ret =>
      simp [SemanticType.isCompatibleWith, shiftAccepts]
    | voidT =>
      simp [SemanticType.isCompatibleWith, shiftAccepts]
    | errorType =>
      simp [SemanticType.isCompatibleWith, shiftAccepts]
  | arrayT e ic =>
    cases r <;>
      simp [SemanticType.isCompatibleWith, shiftAccepts, SemanticType.name,
        shiftIntNames]
  | pointer pk p c =>
    cases r <;>
      simp [SemanticType.isCompatibleWith, shiftAccepts, SemanticType.name,
        hp pk, hp' pk]
  | functionT ps ret =>
    cases r <;>
      simp [SemanticType.isCompatibleWith, shiftAccepts, SemanticType.name,
        shiftIntNames]
  | voidT =>
    cases r <;>
      simp [SemanticType.isCompatibleWith, shiftAccepts, SemanticType.name,
        shiftIntNames]
  | errorType =>
    cases r <;>
      simp [SemanticType.isCompatibleWith, shiftAccepts, SemanticType.name,
        shiftIntNames]

/-- C5 (amended): the type checker accepts a shift expression exactly
when the left operand is an integer primitive type and the right
operand is any numeric primitive type (integer or float, of any
width), the result being a copy of the left operand's type; every
other combination is diagnosed and gets the error type.  The two shift
operators behave identically. -/
theorem shift_typing_amended (l r : SemanticType) :
    typeBinary .shl l r
      = (if shiftAccepts l r then (l, [])
         else (SemanticType.errorType,
               ["Invalid operands for bitwise shift operation"]))
    ∧ typeBinary .shr l r = typeBinary .shl l r := by
  constructor
  · show (if SemanticType.isCompatibleWith l r && shiftIntNames.contains l.name
            then (l, ([] : List String))
            else (SemanticType.errorType,
                  ["Invalid operands for bitwise shift operation"])) = _
    rw [shiftCond_eq]
  · rfl

/-- C1 counterexample: a non-exported symbol declared in module m is
visible in m itself, though the claim's formula requires is_exported
even in the declaring module; and the export table collector copies an
exported symbol of a foreign module into the table being built, though
the claim says the table holds only symbols whose declared_module is
the module at hand. -/
theorem visibility_export_counterexample :
    isSymbolVisibleInCurrentModule
        { name := "x", type := .primitive "i32" false,
          declared_module := "m", is_exported := false } "m" [] = true
    ∧ claimVisible
        { name := "x", type := .primitive "i32" false,
          declared_module := "m", is_exported := false } "m" [] = false
    ∧ (collectModuleExports
        [("y", { name := "y", type := .primitive "i32" false,
                 declared_module := "other", is_exported := true })]).map Prod.fst
      = ["y"]
    ∧ claimExports "m"
        [("y", { name := "y", type := .primitive "i32" false,
                 declared_module := "other", is_exported := true })] = [] :=
  ⟨rfl, rfl, rfl, rfl⟩

/-- C1 (amended): a symbol is visible in the current module exactly
when its declared_module is empty (a built-in), or equals the current
module (regardless of is_exported), or the symbol is exported and the
current module's import list holds an import of the declaring module
that is wildcard or lists the symbol's name; and the export table a
module collects contains exactly the exported symbols of the scanned
global scope, irrespective of their declared_module, each entry being
the export copy of its source symbol. -/
theorem visibility_export_amended :
    (∀ (sym : Symbol) (current : String)
        (mimports : List (String × List ImportInfo)),
      isSymbolVisibleInCurrentModule sym current mimports
        = (sym.declared_module = "" || sym.declared_module = current
            || (sym.is_exported
              && ((mimports.lookup current).getD []).any fun imp =>
                   imp.module_path = sym.declared_module
                     && (imp.is_wildcard || imp.items.contains sym.name))))
    ∧ (∀ (globals : List (String × Symbol)) (n : String) (s : Symbol),
        (n, s) ∈ collectModuleExports globals
          ↔ ∃ s0, (n, s0) ∈ globals ∧ s0.is_exported = true ∧ s = exportCopy s0) := by
  constructor
  · intro sym current mimports
    unfold isSymbolVisibleInCurrentModule
    by_cases h1 : sym.declared_module = ""
    · simp [h1]
    · by_cases h2 : sym.declared_module = current
      · simp [h1, h2]
      · by_cases h3 : sym.is_exported
        · cases hl : mimports.lookup current with
          | none => simp [h1, h2, h3, hl]
          | some imports => simp [h1, h2, h3, hl]
        · simp [h1, h2, h3]
  · intro globals n s
    constructor
    · intro h
      simp only [collectModuleExports, List.mem_map, List.mem_filter] at h
      obtain ⟨⟨n0, s0⟩, ⟨hmem, hexp⟩, heq⟩ := h
      obtain ⟨rfl, rfl⟩ := Prod.mk.injEq .. ▸ heq
      exact ⟨s0, hmem, hexp, rfl⟩
    · rintro ⟨s0, hmem, hexp, rfl⟩
      simp only [collectModuleExports, List.mem_map, List.mem_filter]
      exact ⟨(n, s0), ⟨hmem, hexp⟩, rfl⟩

/-- Completeness of the comment loop against the nesting relation: a
derivably closed comment body is consumed exactly to its matching
closer, one nesting level coming off. -/
theorem nested_skip {cs rest : List Char} (h : NestedComment cs rest) :
    ∀ n : Nat, skipBlockLoop cs (n + 1) = skipBlockLoop rest n := by
  induction h with
  | close rest => intro n; simp [skipBlockLoop]
  | nest h1 h2 ih1 ih2 =>
    intro n
    rename_i inner mid rest
    have hstep : skipBlockLoop ('/' :: '*' :: inner) (n + 1)
        = skipBlockLoop inner (n + 2) := by
      simp [skipBlockLoop]
    rw [hstep, ih1 (n + 1), ih2 n]
  | step g1 g2 h ih =>
    intro n
    rename_i c cs rest
    cases cs with
    | nil => cases h
    | cons d cs' =>
      have g1' : ¬(c = '/' ∧ d = '*') := by simpa using g1
      have g2' : ¬(c = '*' ∧ d = '/') := by simpa using g2
      have hstep : skipBlockLoop (c :: d :: cs') (n + 1)
          = skipBlockLoop (d :: cs') (n + 1) := by
        simp only [skipBlockLoop]
        rw [if_neg g1', if_neg g2']
      rw [hstep, ih n]

/-- A nesting level of zero stops the loop at once. -/
theorem skipBlockLoop_zero (cs : List Char) : skipBlockLoop cs 0 = (cs, 0) := by
  cases cs with
  | nil => rfl
  | cons c cs' => cases cs' <;> rfl

/-- A closed comment body strictly contains its tail. -/
theorem nested_shorter {cs rest : List Char} (h : NestedComment cs rest) :
    rest.length < cs.length := by
  induction h with
  | close rest => simp only [List.length_cons]; omega
  | nest h1 h2 ih1 ih2 => simp only [List.length_cons] at *; omega
  | step g1 g2 h ih => simp only [List.length_cons] at *; omega

/-- Soundness of the comment loop against the nesting relation: when
the loop brings the nesting level to zero, the consumed prefix is a
derivably closed comment body. -/
theorem skip_sound :
    ∀ (k : Nat) (cs : List Char), cs.length ≤ k →
    ∀ (n : Nat) (rest : List Char), skipBlockLoop cs (n + 1) = (rest, 0) →
    ∃ mid, NestedComment cs mid ∧ skipBlockLoop mid n = (rest, 0) := by
  intro k
  induction k with
  | zero =>
    intro cs hle n rest h
    have hnil : cs = [] := List.eq_nil_of_length_eq_zero (Nat.le_zero.mp hle)
    subst hnil
    simp [skipBlockLoop] at h
  | succ k ih =>
    intro cs hle n rest h
    match cs, hle, h with
    | [], _, h => simp [skipBlockLoop] at h
    | [c], _, h => simp [skipBlockLoop] at h
    | c :: d :: cs', hle, h =>
      by_cases h1 : c = '/' ∧ d = '*'
      · obtain ⟨rfl, rfl⟩ := h1
        have hstep : skipBlockLoop ('/' :: '*' :: cs') (n + 1)
            = skipBlockLoop cs' (n + 1 + 1) := by
          simp [skipBlockLoop]
        rw [hstep] at h
        obtain ⟨mid1, hm1, hs1⟩ := ih cs'
          (by simp only [List.length_cons] at hle; omega) (n + 1) rest h
        obtain ⟨mid2, hm2, hs2⟩ := ih mid1
          (by have := nested_shorter hm1
              simp only [List.length_cons] at hle; omega) n rest hs1
        exact ⟨mid2, .nest hm1 hm2, hs2⟩
      · by_cases h2 : c = '*' ∧ d = '/'
        · obtain ⟨rfl, rfl⟩ := h2
          have hstep : skipBlockLoop ('*' :: '/' :: cs') (n + 1)
              = skipBlockLoop cs' n := by
            simp [skipBlockLoop]
          rw [hstep] at h
          exact ⟨cs', .close cs', h⟩
        · have hstep : skipBlockLoop (c :: d :: cs') (n + 1)
              = skipBlockLoop (d :: cs') (n + 1) := by
            simp only [skipBlockLoop]
            rw [if_neg h1, if_neg h2]
          rw [hstep] at h
          obtain ⟨mid, hm, hs⟩ := ih (d :: cs')
            (by simp only [List.length_cons] at hle ⊢; omega) n rest h
          refine ⟨mid, .step ?_ ?_ hm, hs⟩
          · simpa using h1
          · simpa using h2

/-- A loop run that ends with the comment still open has consumed the
whole input. -/
theorem skip_open_at_end :
    ∀ (k : Nat) (cs : List Char), cs.length ≤ k →
    ∀ n : Nat, 0 < (skipBlockLoop cs n).2 → (skipBlockLoop cs n).1 = [] := by
  intro k
  induction k with
  | zero =>
    intro cs hle n hpos
    have hnil : cs = [] := List.eq_nil_of_length_eq_zero (Nat.le_zero.mp hle)
    subst hnil
    cases n with
    | zero => simp [skipBlockLoop] at hpos
    | succ n => simp [skipBlockLoop]
  | succ k ih =>
    intro cs hle n hpos
    cases n with
    | zero => simp [skipBlockLoop] at hpos
    | succ n =>
      match cs, hle, hpos with
      | [], _, _ => simp [skipBlockLoop]
      | [c], _, _ => simp [skipBlockLoop]
      | c :: d :: cs', hle, hpos =>
        by_cases h1 : c = '/' ∧ d = '*'
        · obtain ⟨rfl, rfl⟩ := h1
          have hstep : skipBlockLoop ('/' :: '*' :: cs') (n + 1)
              = skipBlockLoop cs' (n + 2) := by
            simp [skipBlockLoop]
          rw [hstep] at hpos ⊢
          exact ih cs' (by simp only [List.length_cons] at hle; omega) _ hpos
        · by_cases h2 : c = '*' ∧ d = '/'
          · obtain ⟨rfl, rfl⟩ := h2
            have hstep : skipBlockLoop ('*' :: '/' :: cs') (n + 1)
                = skipBlockLoop cs' n := by
              simp [skipBlockLoop]
            rw [hstep] at hpos ⊢
            exact ih cs' (by simp only [List.length_cons] at hle; omega) _ hpos
          · have hstep : skipBlockLoop (c :: d :: cs') (n + 1)
                = skipBlockLoop (d :: cs') (n + 1) := by
              simp only [skipBlockLoop]
              rw [if_neg h1, if_neg h2]
            rw [hstep] at hpos ⊢
            exact ih (d :: cs')
              (by simp only [List.length_cons] at hle ⊢; omega) _ hpos

/-- C6: the lexer's block-comment scanner nests.  A comment body that
closes in the balanced sense (NestedComment, which counts opener and
closer pairs and ends only when every nested opener has been closed)
is consumed exactly to its matching closer with no diagnostic; an
input with no balanced closer is consumed to the end of input and
reports the "Unterminated block comment" error. -/
theorem blockComment_nesting (cs : List Char) :
    (∀ rest, NestedComment cs rest → skipBlockComment cs = (rest, []))
    ∧ ((¬ ∃ rest, NestedComment cs rest) →
        skipBlockComment cs = ([], ["Unterminated block comment"])) := by
  constructor
  · intro rest h
    have h1 : skipBlockLoop cs 1 = (rest, 0) :=
      (nested_skip h 0).trans (skipBlockLoop_zero rest)
    simp [skipBlockComment, h1]
  · intro hno
    rcases hpos : skipBlockLoop cs 1 with ⟨restr, m⟩
    cases m with
    | zero =>
      obtain ⟨mid, hm, _⟩ := skip_sound cs.length cs le_rfl 0 restr hpos
      exact absurd ⟨mid, hm⟩ hno
    | succ m' =>
      have hempty : (skipBlockLoop cs 1).1 = [] :=
        skip_open_at_end cs.length cs le_rfl 1 (by rw [hpos]; omega)
      rw [hpos] at hempty
      simp at hempty
      subst hempty
      simp [skipBlockComment, hpos]

/-- Witness for the C6 theorem: a body with one nested comment closes
at the second closer, and an immediately re-opened comment at end of
input is unterminated. -/
theorem blockComment_nesting_witness :
    skipBlockComment ['/', '*', '*', '/', '*', '/', 'r'] = (['r'], [])
    ∧ skipBlockComment ['/', '*'] = ([], ["Unterminated block comment"]) := by
  constructor
  · exact (blockComment_nesting _).1 ['r'] (.nest (.close _) (.close _))
  · refine (blockComment_nesting _).2 ?_
    rintro ⟨rest, h⟩
    cases h with
    | nest h1 h2 => cases h1
    | step g1 g2 h' => exact g1 (by simp)

/-- C7: at the two-module import cycle (module a importing b and
module b importing a, the main module importing a), the inner revisit
of a prints exactly the one circular-dependency message and yields no
module, yet createProgram does not reach the exit-code-1 path: the
message bypasses the diagnostics the driver consults, the outer load
still returns a module, and loading completes with that one stderr
line as its only trace. -/
theorem circular_dependency_no_exit :
    loadModule [("a", ⟨[{ module_path := "b" }]⟩), ("b", ⟨[{ module_path := "a" }]⟩)] 3
        { loaded := [], loading := ["b", "a"], cerr := [] } "a"
      = ({ loaded := [], loading := ["b", "a"],
           cerr := ["Error: Circular dependency detected for module: a"] }, none)
    ∧ isExitedOne (createProgram
        [("a", ⟨[{ module_path := "b" }]⟩), ("b", ⟨[{ module_path := "a" }]⟩)] 4
        [{ module_path := "a" }] false) = false
    ∧ cerrOf (createProgram
        [("a", ⟨[{ module_path := "b" }]⟩), ("b", ⟨[{ module_path := "a" }]⟩)] 4
        [{ module_path := "a" }] false)
      = ["Error: Circular dependency detected for module: a"] :=
  ⟨rfl, rfl, rfl⟩

/-- C8 counterexample: with stdlib auto-import enabled and one
explicit import m, the implicit wildcard io import ends up after m in
the main module's import list, not at the front as the claim states. -/
theorem stdlib_import_back_counterexample :
    mainImportsOf (createProgram [("io", ⟨[]⟩), ("m", ⟨[]⟩)] 4
        [{ module_path := "m" }] true)
      = [{ module_path := "m" },
         { module_path := "io", items := [], is_wildcard := true }]
    ∧ [({ module_path := "m" } : ImportDecl),
       { module_path := "io", items := [], is_wildcard := true }]
      ≠ [{ module_path := "io", items := [], is_wildcard := true },
         { module_path := "m" }] :=
  ⟨rfl, by decide⟩

/-- The import-loading loop never changes the main module's
recorded import list. -/
theorem mainImportsOf_loadMainImports (env : ModuleEnv) (fuel : Nat)
    (mi : List ImportDecl) :
    ∀ (imps : List ImportDecl) (st : LoaderState),
      mainImportsOf (loadMainImports env fuel mi imps st) = mi := by
  intro imps
  induction imps with
  | nil => intro st; rfl
  | cons imp rest ih =>
    intro st
    simp only [loadMainImports]
    cases (loadModule env fuel st imp.module_path).2 with
    | none => rfl
    | some m => exact ih _

/-- C8 (amended): unless --no-stdlib is given, and provided the io
module itself loads, the driver appends the implicit wildcard import
of io at the back of the main module's import list, after every
explicit import; when io fails to load, or with --no-stdlib, the
main module's import list is left unchanged. -/
theorem stdlib_import_appended (env : ModuleEnv) (fuel : Nat)
    (mainImports : List ImportDecl) :
    mainImportsOf (createProgram env fuel mainImports true)
      = (if (loadModule env fuel {} "io").2.isSome then
          mainImports ++ [{ module_path := "io", items := [], is_wildcard := true }]
         else mainImports)
    ∧ mainImportsOf (createProgram env fuel mainImports false) = mainImports := by
  constructor
  · simp only [createProgram, List.foldl, if_pos]
    cases hio : (loadModule env fuel {} "io").2 with
    | none =>
      simp only [hio, Option.isSome_none, Bool.false_eq_true, if_false]
      exact mainImportsOf_loadMainImports ..
    | some m =>
      simp only [hio, Option.isSome_some, if_true]
      exact mainImportsOf_loadMainImports ..
  · exact mainImportsOf_loadMainImports ..

/-- C10: a module path already present in the loaded-modules map makes
loadModule return no module; consequently a duplicated path in the
main module's import list (m imported twice, or the implicit io import
together with an explicit import of io) makes createProgram print
"Failed to load module" for it and exit with code 1. -/
theorem duplicate_module_load_fails :
    (∀ (env : ModuleEnv) (fuel : Nat) (st : LoaderState) (path : String),
        (st.loaded.lookup path).isSome = true →
        loadModule env fuel st path = (st, none))
    ∧ isExitedOne (createProgram [("m", ⟨[]⟩)] 4
        [{ module_path := "m" }, { module_path := "m" }] false) = true
    ∧ cerrOf (createProgram [("m", ⟨[]⟩)] 4
        [{ module_path := "m" }, { module_path := "m" }] false)
      = ["Failed to load module: m"]
    ∧ isExitedOne (createProgram [("io", ⟨[]⟩)] 4
        [{ module_path := "io" }] true) = true
    ∧ cerrOf (createProgram [("io", ⟨[]⟩)] 4
        [{ module_path := "io" }] true)
      = ["Failed to load module: io"] := by
  refine ⟨?_, rfl, rfl, rfl, rfl⟩
  intro env fuel st path h
  cases fuel with
  | zero => rfl
  | succ f => simp [loadModule, h]

/-- Witness for the C10 theorem: loadModule at a concrete
already-loaded path returns the state unchanged and no module. -/
theorem duplicate_module_load_fails_witness :
    loadModule [] 1 { loaded := [("m", ⟨[]⟩)], loading := [], cerr := [] } "m"
      = ({ loaded := [("m", ⟨[]⟩)], loading := [], cerr := [] }, none) :=
  duplicate_module_load_fails.1 [] 1
    { loaded := [("m", ⟨[]⟩)], loading := [], cerr := [] } "m" (by decide)

/-- The power operator is arithmetic for no common type. -/
theorem genArith_power (pl pr : IRValue) (c : IRType) :
    generateArithmeticOperation .power pl pr c = none := by
  unfold generateArithmeticOperation
  by_cases h1 : c.isIntegerTy = true
  · simp [h1]
  · by_cases h2 : c.isFloatingPointTy = true
    · simp [h1, h2]
    · simp [h1, h2]

/-- Once the operands of a mixed-type numeric binary expression have
been promoted, any operator that is arithmetic for the common type is
emitted on exactly the promoted operands. -/
theorem visitBinary_promoted (l r pl pr : IRValue) (c : IRType)
    (hne : l.getType ≠ r.getType)
    (hl : isNumericType l.getType = true)
    (hr : isNumericType r.getType = true)
    (hpromote : promoteToCommonType l r = some (pl, pr))
    (htl : pl.getType = c) :
    ∀ op : BinOpTok,
      (generateArithmeticOperation op pl pr c).isSome = true →
      visitBinary op l r = generateArithmeticOperation op pl pr c := by
  intro op hsome
  have hop : op ≠ .power := by
    rintro rfl
    rw [genArith_power] at hsome
    simp at hsome
  obtain ⟨v, hv⟩ := Option.isSome_iff_exists.mp hsome
  simp [visitBinary, hne, hl, hr, hpromote, htl, hop, hv]

/-- C2: in IR code generation, a binary expression whose operand
values have different types, both numeric, has its operands promoted
to the common numeric type first — unchanged when already common,
integer to float via signed-int-to-float, a float widened via
fp-extend, a narrower integer widened via sign-extend, a wider integer
narrowed via truncate — and every operator that is arithmetic for the
common type is then emitted on the promoted operands; in particular
adding an i16 and an i64 sign-extends the i16 to i64 and adds in
i64. -/
theorem binary_numeric_promotion (l r : IRValue)
    (hne : l.getType ≠ r.getType)
    (hl : isNumericType l.getType = true)
    (hr : isNumericType r.getType = true) :
    ∃ common pl pr,
      getCommonNumericType l.getType r.getType = some common
      ∧ promoteToCommonType l r = some (pl, pr)
      ∧ pl.getType = common ∧ pr.getType = common
      ∧ PromotedAs l common pl ∧ PromotedAs r common pr
      ∧ (∀ op : BinOpTok,
          (generateArithmeticOperation op pl pr common).isSome = true →
          visitBinary op l r = generateArithmeticOperation op pl pr common)
      ∧ visitBinary .plus (.inp (.int 16)) (.inp (.int 64))
          = some (.add (.sext (.inp (.int 16)) (.int 64)) (.inp (.int 64))) := by
  have hconc : visitBinary .plus (.inp (.int 16)) (.inp (.int 64))
      = some (.add (.sext (.inp (.int 16)) (.int 64)) (.inp (.int 64))) := rfl
  cases hlt : l.getType with
  | ptr =>
    rw [hlt] at hl
    simp [isNumericType, IRType.isIntegerTy, IRType.isFloatingPointTy] at hl
  | voidT =>
    rw [hlt] at hl
    simp [isNumericType, IRType.isIntegerTy, IRType.isFloatingPointTy] at hl
  | int w =>
    cases hrt : r.getType with
    | ptr =>
      rw [hrt] at hr
      simp [isNumericType, IRType.isIntegerTy, IRType.isFloatingPointTy] at hr
    | voidT =>
      rw [hrt] at hr
      simp [isNumericType, IRType.isIntegerTy, IRType.isFloatingPointTy] at hr
    | int w' =>
      have hww : w ≠ w' := fun h => hne (by rw [hlt, hrt, h])
      by_cases hrank : getNumericTypeRank (.int w') ≤ getNumericTypeRank (.int w)
      · have hc : getCommonNumericType (IRType.int w) (IRType.int w') = some (.int w) := by
          simp [getCommonNumericType, isNumericType, IRType.isIntegerTy,
            IRType.isFloatingPointTy, hrank]
        have hc2 : getCommonNumericType l.getType r.getType = some (.int w) := by
          rw [hlt, hrt]; exact hc
        have hplv : promoteOperand l (.int w) = l := by
          simp [promoteOperand, hlt]
        rcases Nat.lt_trichotomy w' w with hlt' | heq | hgt'
        · have hprv : promoteOperand r (.int w) = .sext r (.int w) := by
            simp [promoteOperand, hrt, IRType.isIntegerTy,
              IRType.isFloatingPointTy, IRType.bitWidth, Ne.symm hww, hlt']
          have hpromo : promoteToCommonType l r = some (l, .sext r (.int w)) := by
            simp [promoteToCommonType, hc2, hplv, hprv]
          exact ⟨.int w, l, .sext r (.int w), hc, hpromo, by rw [hlt], rfl,
            Or.inl ⟨hlt, rfl⟩,
            Or.inr (Or.inr (Or.inr (Or.inl
              ⟨by rw [hrt]; rfl, rfl, by rw [hrt]; exact hlt', rfl⟩))),
            visitBinary_promoted l r _ _ _ hne hl hr hpromo (by rw [hlt]), hconc⟩
        · exact absurd heq.symm hww
        · have hprv : promoteOperand r (.int w) = .trunc r (.int w) := by
            simp [promoteOperand, hrt, IRType.isIntegerTy,
              IRType.isFloatingPointTy, IRType.bitWidth, Ne.symm hww,
              Nat.not_lt.mpr (Nat.le_of_lt hgt'), hgt']
          have hpromo : promoteToCommonType l r = some (l, .trunc r (.int w)) := by
            simp [promoteToCommonType, hc2, hplv, hprv]
          exact ⟨.int w, l, .trunc r (.int w), hc, hpromo, by rw [hlt], rfl,
            Or.inl ⟨hlt, rfl⟩,
            Or.inr (Or.inr (Or.inr (Or.inr
              ⟨by rw [hrt]; rfl, rfl, by rw [hrt]; exact hgt', rfl⟩))),
            visitBinary_promoted l r _ _ _ hne hl hr hpromo (by rw [hlt]), hconc⟩
      · have hc : getCommonNumericType (IRType.int w) (IRType.int w') = some (.int w') := by
          simp [getCommonNumericType, isNumericType, IRType.isIntegerTy,
            IRType.isFloatingPointTy, hrank]
        have hc2 : getCommonNumericType l.getType r.getType = some (.int w') := by
          rw [hlt, hrt]; exact hc
        have hprv : promoteOperand r (.int w') = r := by
          simp [promoteOperand, hrt]
        rcases Nat.lt_trichotomy w w' with hlt' | heq | hgt'
        · have hplv : promoteOperand l (.int w') = .sext l (.int w') := by
            simp [promoteOperand, hlt, IRType.isIntegerTy,
              IRType.isFloatingPointTy, IRType.bitWidth, hww, hlt']
          have hpromo : promoteToCommonType l r = some (.sext l (.int w'), r) := by
            simp [promoteToCommonType, hc2, hplv, hprv]
          exact ⟨.int w', .sext l (.int w'), r, hc, hpromo, rfl, by rw [hrt],
            Or.inr (Or.inr (Or.inr (Or.inl
              ⟨by rw [hlt]; rfl, rfl, by rw [hlt]; exact hlt', rfl⟩))),
            Or.inl ⟨hrt, rfl⟩,
            visitBinary_promoted l r _ _ _ hne hl hr hpromo rfl, hconc⟩
        · exact absurd heq hww
        · have hplv : promoteOperand l (.int w') = .trunc l (.int w') := by
            simp [promoteOperand, hlt, IRType.isIntegerTy,
              IRType.isFloatingPointTy, IRType.bitWidth, hww,
              Nat.not_lt.mpr (Nat.le_of_lt hgt'), hgt']
          have hpromo : promoteToCommonType l r = some (.trunc l (.int w'), r) := by
            simp [promoteToCommonType, hc2, hplv, hprv]
          exact ⟨.int w', .trunc l (.int w'), r, hc, hpromo, rfl, by rw [hrt],
            Or.inr (Or.inr (Or.inr (Or.inr
              ⟨by rw [hlt]; rfl, rfl, by rw [hlt]; exact hgt', rfl⟩))),
            Or.inl ⟨hrt, rfl⟩,
            visitBinary_promoted l r _ _ _ hne hl hr hpromo rfl, hconc⟩
    | floatT =>
      have hc : getCommonNumericType (IRType.int w) IRType.floatT = some .floatT := by
        simp [getCommonNumericType, isNumericType, IRType.isIntegerTy,
          IRType.isFloatingPointTy]
      have hc2 : getCommonNumericType l.getType r.getType = some .floatT := by
        rw [hlt, hrt]; exact hc
      have hplv : promoteOperand l .floatT = .sitofp l .floatT := by
        simp [promoteOperand, hlt, IRType.isIntegerTy, IRType.isFloatingPointTy]
      have hprv : promoteOperand r .floatT = r := by
        simp [promoteOperand, hrt]
      have hpromo : promoteToCommonType l r = some (.sitofp l .floatT, r) := by
        simp [promoteToCommonType, hc2, hplv, hprv]
      exact ⟨.floatT, .sitofp l .floatT, r, hc, hpromo, rfl, by rw [hrt],
        Or.inr (Or.inl ⟨by rw [hlt]; rfl, rfl, rfl⟩),
        Or.inl ⟨hrt, rfl⟩,
        visitBinary_promoted l r _ _ _ hne hl hr hpromo rfl, hconc⟩
    | doubleT =>
      have hc : getCommonNumericType (IRType.int w) IRType.doubleT = some .doubleT := by
        simp [getCommonNumericType, isNumericType, IRType.isIntegerTy,
          IRType.isFloatingPointTy]
      have hc2 : getCommonNumericType l.getType r.getType = some .doubleT := by
        rw [hlt, hrt]; exact hc
      have hplv : promoteOperand l .doubleT = .sitofp l .doubleT := by
        simp [promoteOperand, hlt, IRType.isIntegerTy, IRType.isFloatingPointTy]
      have hprv : promoteOperand r .doubleT = r := by
        simp [promoteOperand, hrt]
      have hpromo : promoteToCommonType l r = some (.sitofp l .doubleT, r) := by
        simp [promoteToCommonType, hc2, hplv, hprv]
      exact ⟨.doubleT, .sitofp l .doubleT, r, hc, hpromo, rfl, by rw [hrt],
        Or.inr (Or.inl ⟨by rw [hlt]; rfl, rfl, rfl⟩),
        Or.inl ⟨hrt, rfl⟩,
        visitBinary_promoted l r _ _ _ hne hl hr hpromo rfl, hconc⟩
  | floatT =>
    cases hrt : r.getType with
    | ptr =>
      rw [hrt] at hr
      simp [isNumericType, IRType.isIntegerTy, IRType.isFloatingPointTy] at hr
    | voidT =>
      rw [hrt] at hr
      simp [isNumericType, IRType.isIntegerTy, IRType.isFloatingPointTy] at hr
    | floatT => exact absurd (hlt.trans hrt.symm) hne
    | int w' =>
      have hc : getCommonNumericType IRType.floatT (IRType.int w') = some .floatT := by
        simp [getCommonNumericType, isNumericType, IRType.isIntegerTy,
          IRType.isFloatingPointTy]
      have hc2 : getCommonNumericType l.getType r.getType = some .floatT := by
        rw [hlt, hrt]; exact hc
      have hplv : promoteOperand l .floatT = l := by
        simp [promoteOperand, hlt]
      have hprv : promoteOperand r .floatT = .sitofp r .floatT := by
        simp [promoteOperand, hrt, IRType.isIntegerTy, IRType.isFloatingPointTy]
      have hpromo : promoteToCommonType l r = some (l, .sitofp r .floatT) := by
        simp [promoteToCommonType, hc2, hplv, hprv]
      exact ⟨.floatT, l, .sitofp r .floatT, hc, hpromo, by rw [hlt], rfl,
        Or.inl ⟨hlt, rfl⟩,
        Or.inr (Or.inl ⟨by rw [hrt]; rfl, rfl, rfl⟩),
        visitBinary_promoted l r _ _ _ hne hl hr hpromo (by rw [hlt]), hconc⟩
    | doubleT =>
      have hc : getCommonNumericType IRType.floatT IRType.doubleT = some .doubleT := by
        simp [getCommonNumericType, isNumericType, IRType.isIntegerTy,
          IRType.isFloatingPointTy]
      have hc2 : getCommonNumericType l.getType r.getType = some .doubleT := by
        rw [hlt, hrt]; exact hc
      have hplv : promoteOperand l .doubleT = .fpext l .doubleT := by
        simp [promoteOperand, hlt, IRType.isIntegerTy, IRType.isFloatingPointTy]
      have hprv : promoteOperand r .doubleT = r := by
        simp [promoteOperand, hrt]
      have hpromo : promoteToCommonType l r = some (.fpext l .doubleT, r) := by
        simp [promoteToCommonType, hc2, hplv, hprv]
      exact ⟨.doubleT, .fpext l .doubleT, r, hc, hpromo, rfl, by rw [hrt],
        Or.inr (Or.inr (Or.inl
          ⟨by rw [hlt]; simp, by rw [hlt]; rfl, rfl, rfl⟩)),
        Or.inl ⟨hrt, rfl⟩,
        visitBinary_promoted l r _ _ _ hne hl hr hpromo rfl, hconc⟩
  | doubleT =>
    cases hrt : r.getType with
    | ptr =>
      rw [hrt] at hr
      simp [isNumericType, IRType.isIntegerTy, IRType.isFloatingPointTy] at hr
    | voidT =>
      rw [hrt] at hr
      simp [isNumericType, IRType.isIntegerTy, IRType.isFloatingPointTy] at hr
    | doubleT => exact absurd (hlt.trans hrt.symm) hne
    | int w' =>
      have hc : getCommonNumericType IRType.doubleT (IRType.int w') = some .doubleT := by
        simp [getCommonNumericType, isNumericType, IRType.isIntegerTy,
          IRType.isFloatingPointTy]
      have hc2 : getCommonNumericType l.getType r.getType = some .doubleT := by
        rw [hlt, hrt]; exact hc
      have hplv : promoteOperand l .doubleT = l := by
        simp [promoteOperand, hlt]
      have hprv : promoteOperand r .doubleT = .sitofp r .doubleT := by
        simp [promoteOperand, hrt, IRType.isIntegerTy, IRType.isFloatingPointTy]
      have hpromo : promoteToCommonType l r = some (l, .sitofp r .doubleT) := by
        simp [promoteToCommonType, hc2, hplv, hprv]
      exact ⟨.doubleT, l, .sitofp r .doubleT, hc, hpromo, by rw [hlt], rfl,
        Or.inl ⟨hlt, rfl⟩,
        Or.inr (Or.inl ⟨by rw [hrt]; rfl, rfl, rfl⟩),
        visitBinary_promoted l r _ _ _ hne hl hr hpromo (by rw [hlt]), hconc⟩
    | floatT =>
      have hc : getCommonNumericType IRType.doubleT IRType.floatT = some .doubleT := by
        simp [getCommonNumericType, isNumericType, IRType.isIntegerTy,
          IRType.isFloatingPointTy]
      have hc2 : getCommonNumericType l.getType r.getType = some .doubleT := by
        rw [hlt, hrt]; exact hc
      have hplv : promoteOperand l .doubleT = l := by
        simp [promoteOperand, hlt]
      have hprv : promoteOperand r .doubleT = .fpext r .doubleT := by
        simp [promoteOperand, hrt, IRType.isIntegerTy, IRType.isFloatingPointTy]
      have hpromo : promoteToCommonType l r = some (l, .fpext r .doubleT) := by
        simp [promoteToCommonType, hc2, hplv, hprv]
      exact ⟨.doubleT, l, .fpext r .doubleT, hc, hpromo, by rw [hlt], rfl,
        Or.inl ⟨hlt, rfl⟩,
        Or.inr (Or.inr (Or.inl
          ⟨by rw [hrt]; simp, by rw [hrt]; rfl, rfl, rfl⟩)),
        visitBinary_promoted l r _ _ _ hne hl hr hpromo (by rw [hlt]), hconc⟩

/-- Witness for the C2 theorem at an i16 left operand and i64 right
operand. -/
theorem binary_numeric_promotion_witness :
    ∃ common pl pr,
      getCommonNumericType (IRValue.inp (.int 16)).getType
          (IRValue.inp (.int 64)).getType = some common
      ∧ promoteToCommonType (.inp (.int 16)) (.inp (.int 64)) = some (pl, pr)
      ∧ pl.getType = common ∧ pr.getType = common
      ∧ PromotedAs (.inp (.int 16)) common pl
      ∧ PromotedAs (.inp (.int 64)) common pr
      ∧ (∀ op : BinOpTok,
          (generateArithmeticOperation op pl pr common).isSome = true →
          visitBinary op (.inp (.int 16)) (.inp (.int 64))
            = generateArithmeticOperation op pl pr common)
      ∧ visitBinary .plus (.inp (.int 16)) (.inp (.int 64))
          = some (.add (.sext (.inp (.int 16)) (.int 64)) (.inp (.int 64))) :=
  binary_numeric_promotion (.inp (.int 16)) (.inp (.int 64))
    (by decide) (by decide) (by decide)

/-- C9: the expression parser is right-associative for power and
assignment, and for any two ladder operators of strictly increasing
precedence the tighter operator binds: a o1 b o2 c parses as
a o1 (b o2 c) for all identifier operands a, b, c. -/
theorem parser_assoc_precedence :
    (∀ a b c : String,
      parseExpression 32
          [identTok a, opTok .POWER, identTok b, opTok .POWER, identTok c]
        = some (.binary (.identE a) .POWER
            (.binary (.identE b) .POWER (.identE c)), []))
    ∧ (∀ a b c : String,
      parseExpression 32
          [identTok a, opTok .ASSIGN, identTok b, opTok .ASSIGN, identTok c]
        = some (.assign (.identE a) .ASSIGN
            (.assign (.identE b) .ASSIGN (.identE c)), []))
    ∧ (∀ (a b c : String) (o1 o2 : TokT),
        o1 ∈ binaryOps → o2 ∈ binaryOps → precOf o1 < precOf o2 →
        parseExpression 32 [identTok a, opTok o1, identTok b, opTok o2, identTok c]
          = some (mkNode o1 (.identE a) (mkNode o2 (.identE b) (.identE c)), [])) := by
  refine ⟨fun a b c => rfl, fun a b c => rfl, ?_⟩
  intro a b c o1 o2 h1 h2 hp
  fin_cases h1 <;> fin_cases h2 <;>
    first
      | exact absurd hp (by decide)
      | rfl

/-- Witness for the C9 theorem at a + b * c. -/
theorem parser_assoc_precedence_witness :
    parseExpression 32
        [identTok "x", opTok .PLUS, identTok "y", opTok .MULTIPLY, identTok "z"]
      = some (mkNode .PLUS (.identE "x")
          (mkNode .MULTIPLY (.identE "y") (.identE "z")), []) :=
  parser_assoc_precedence.2.2 "x" "y" "z" .PLUS .MULTIPLY
    (by decide) (by decide) (by decide)

end Pangea
